import Mathlib

/-!
Verification development for the PyroMan firing console.

Shallow embedding of the Python sources:
  * `src/lib/_433.py`            — 433MHz pulse decoder (class `rx`)
  * `src/rf_sender.py`           — transmit wrapper (the `tx` class it imports is
                                   absent from the sources, see `txCopy` below)
  * `src/config.py`              — configuration getters
  * `src/authorize.py`           — authorization session and serial bridge protocol
  * `src/state.py`               — in-memory fired/authorized/armed state
  * `src/direktzuender_wartung.py` — persisted per-channel availability store
  * `src/fire_control.py`        — fire orchestration

Machine integers do not overflow in Python, so counters and codes are `Nat`/`Int`;
the only wrapping quantity is pigpio's 32-bit tick, modelled with an explicit
`% 2 ^ 32`.
-/

namespace Pyroman

/-! ## Pulse decoder (src/lib/_433.py, class rx) -/

/-- `min_bits`/`max_bits` of `rx.__init__` (defaults 8 and 32). -/
structure RxParams where
  min_bits : Nat
  max_bits : Nat
  deriving Repr, DecidableEq

/-- The mutable fields of an `rx` instance that `_cbf` reads and writes
(`_in_code`, `_edge`, `_code`, `_gap`, `_t0`, `_t1`, `_bits`, `_last_edge_tick`). -/
structure RxState where
  in_code : Bool
  edge : Nat
  code : Nat
  gap : Nat
  t0 : Nat
  t1 : Nat
  bits : Nat
  last_edge_tick : Nat
  deriving Repr, DecidableEq

/-- The field values of an `rx` instance right after `__init__`. -/
def rxInit : RxState := ⟨false, 0, 0, 0, 0, 0, 0, 0⟩

/-- One decoder emission: the argument tuple `(code, bits, gap, t0, t1)` passed to
the registered callback. -/
structure Emit where
  code : Nat
  bits : Nat
  gap : Nat
  t0 : Nat
  t1 : Nat
  deriving Repr, DecidableEq

/-- `pigpio.tickDiff(t1, t2)`: difference of two 32-bit microsecond ticks with
wrap-around, `(t2 - t1) mod 2^32` (for ticks below `2 ^ 32`). -/
def tickDiff (t1 t2 : Nat) : Nat := (2 ^ 32 + t2 - t1) % 2 ^ 32

/-- `rx._cbf(gpio, level, tick)`.  `level = 2` is a pigpio watchdog timeout; the
gpio argument is unused by the body.  Returns the updated instance state and the
emission (callback invocation), if any. -/
def cbf (p : RxParams) (s : RxState) (level : Nat) (tick : Nat) :
    RxState × Option Emit :=
  if level = 2 then
    -- watchdog timeout: emit if in code and bit count in range, then leave code
    if s.in_code then
      ({ s with in_code := false },
       if p.min_bits ≤ s.bits ∧ s.bits ≤ p.max_bits then
         some ⟨s.code, s.bits, s.gap, s.t0, s.t1⟩
       else none)
    else (s, none)
  else
    -- `if self._last_edge_tick:` — Python truthiness of the stored tick
    let edge_len := if s.last_edge_tick ≠ 0 then tickDiff s.last_edge_tick tick else 0
    let s1 := { s with last_edge_tick := tick }
    if s1.in_code = false then
      -- waiting for a long gap (> 4000µs) to start a code
      if edge_len > 4000 then
        ({ s1 with in_code := true, edge := 0, code := 0, gap := edge_len, bits := 0 },
         none)
      else (s1, none)
    else
      -- in code: `_t0`/`_t1` are written only at edges 0 and 1
      let s2 := if s1.edge = 0 then { s1 with t0 := edge_len }
                else if s1.edge = 1 then { s1 with t1 := edge_len }
                else s1
      -- odd edge: one bit complete, decided by the stored `_t0 < _t1`
      let s3 := if s2.edge % 2 = 1 then
                  { s2 with
                    code := if s2.t0 < s2.t1 then s2.code * 2 + 1 else s2.code * 2,
                    bits := s2.bits + 1 }
                else s2
      let s4 := { s3 with edge := s3.edge + 1 }
      -- code finished by a long interval?
      if edge_len > 4000 then
        ({ s4 with in_code := false },
         if p.min_bits ≤ s4.bits ∧ s4.bits ≤ p.max_bits then
           some ⟨s4.code, s4.bits, s4.gap, s4.t0, s4.t1⟩
         else none)
      else (s4, none)

/-- Feed a list of `(level, tick)` events one by one into `_cbf`, collecting the
emissions in order. -/
def rxRun (p : RxParams) : RxState → List (Nat × Nat) → RxState × List Emit
  | s, [] => (s, [])
  | s, (lv, tk) :: rest =>
    let r := cbf p s lv tk
    let r2 := rxRun p r.1 rest
    (r2.1, r.2.toList ++ r2.2)

/-! ## Pulse encoder

`src/rf_sender.py` line 15 does `from lib._433 import tx`, but `src/lib/_433.py`
contains only the receiver class `rx`: the transmitter class is not part of the
sources.  It is therefore modelled from the spec below. -/

/-- The per-deployment transmit parameters handed to `tx` by `RFSender.__init__`
(gap, t0, t1, bit count, repeat count; the gpio pin is irrelevant to the codec). -/
structure TxParams where
  gap : Nat
  t0 : Nat
  t1 : Nat
  bits : Nat
  repeats : Nat
  deriving Repr, DecidableEq

/-- Bit `i` (MSB-first, `i < bits`) of `code` at width `bits`. -/
def txBit (code bits i : Nat) : Bool := code / 2 ^ (bits - 1 - i) % 2 = 1

/-- Modelled from the spec: the waveform of one bit produced by the missing
transmitter class `tx` of `lib/_433.py`.  Spec §4.2: "for each bit (MSB-first),
emit a short pulse followed by a short-low (t0) or long-low (t1) depending on bit
value, mirroring the decoder's t0<t1 rule".  The short pulse is `t0` long, which
is what makes the pulse/low pair mirror the decoder's rule: pulse `t0` followed by
low `t1` compares `t0 < t1` (bit 1), pulse `t0` followed by low `t0` does not
(bit 0).  A segment `(lvl, d)` is the line held at `lvl` for `d` microseconds. -/
def txBitSymbol (p : TxParams) (b : Bool) : List (Bool × Nat) :=
  [(true, p.t0), (false, if b then p.t1 else p.t0)]

/-- Modelled from the spec: one copy of the pulse train of the missing `tx` class.
Spec §6: "[leader gap][bits × (pulse + t0-or-t1 low)][trailer gap]". -/
def txCopy (p : TxParams) (code : Nat) : List (Bool × Nat) :=
  (false, p.gap) ::
    ((List.range p.bits).map (fun i => txBitSymbol p (txBit code p.bits i))).flatten
    ++ [(false, p.gap)]

/-- Modelled from the spec: the full transmission of the missing `tx` class, spec
§6: "`repeats` consecutive copies" of one train. -/
def txTrain (p : TxParams) (code : Nat) : List (Bool × Nat) :=
  ((List.range p.repeats).map (fun _ => txCopy p code)).flatten

/-- The edge (transition) times of a waveform: starting at time `t` with the line
at level `lvl`, an edge occurs at the start of every segment whose level differs
from the current line level.  Segments of the current level merge silently —
adjacent low periods (bit low, trailer gap, next leader gap) produce no edge
between them. -/
def waveEdges : Nat → Bool → List (Bool × Nat) → List Nat
  | _, _, [] => []
  | t, lvl, (l, d) :: rest =>
    if l = lvl then waveEdges (t + d) lvl rest
    else t :: waveEdges (t + d) l rest

/-- Turn edge times into `_cbf` events.  The decoder's behavior depends on the
level argument only through the test `level = 2` (watchdog), so real edges are
fed with level 0. -/
def edgeFeed (ts : List Nat) : List (Nat × Nat) := ts.map (fun t => (0, t))

/-! ## Configuration (src/config.py)

The loaded `_config` JSON dictionary is modelled by the fields the getters read;
a `.get(key)` that may be absent is an `Option`. -/

/-- One entry of the `koffer` list in config.json, as read by
`get_channel_code` (`koffer.get("id")`, `koffer.get("koffer_nummer")`) and
`get_koffer_list` (`k.get("enabled", False)`). -/
structure KofferEntry where
  id : Option Int
  koffer_nummer : Option Int
  enabled : Option Bool
  deriving Repr, DecidableEq

/-- The module state of config.py after `_load_config()`: the `_config_valid`
flag and the parts of `_config` that the embedded getters read. -/
structure ConfigState where
  valid : Bool
  auth_required : Option Bool
  auth_code : Option Int
  auth_timeout_sekunden : Option Int
  koffer : List KofferEntry
  dz_erste_box_nr : Option Int
  dz_anzahl : Option Nat
  deriving Repr, DecidableEq

/-- `config.is_valid()`. -/
def is_valid (c : ConfigState) : Bool := c.valid

/-- `config.is_auth_required()`: `True` when the config failed validation
("Im Zweifel: ja"), else `autorisierung.get("auth_required", True)`. -/
def is_auth_required (c : ConfigState) : Bool :=
  if c.valid = false then true
  else c.auth_required.getD true

/-- `config.get_auth_code()`. -/
def get_auth_code (c : ConfigState) : Option Int :=
  if c.valid = false then none else c.auth_code

/-- `config.get_auth_timeout()` (default 5). -/
def get_auth_timeout (c : ConfigState) : Int :=
  if c.valid = false then 5 else c.auth_timeout_sekunden.getD 5

/-- The loop of `config.get_channel_code`: first koffer whose `id` equals
`koffer_id` and whose `koffer_nummer` is present yields
`koffer_nummer + kanal_nr`; a matching koffer without `koffer_nummer` lets the
loop continue. -/
def channelCodeLoop (koffer_id kanal_nr : Int) : List KofferEntry → Option Int
  | [] => none
  | k :: rest =>
    if k.id = some koffer_id then
      match k.koffer_nummer with
      | some n => some (n + kanal_nr)
      | none => channelCodeLoop koffer_id kanal_nr rest
    else channelCodeLoop koffer_id kanal_nr rest

/-- `config.get_channel_code(koffer_id, kanal_nr)`. -/
def get_channel_code (c : ConfigState) (koffer_id kanal_nr : Int) : Option Int :=
  if c.valid = false then none
  else channelCodeLoop koffer_id kanal_nr c.koffer

/-- `config.get_direktzuender_code(nr)`: `erste_box_nr + nr - 1` with
`erste_box_nr` defaulting to 1001. -/
def get_direktzuender_code (c : ConfigState) (nr : Int) : Option Int :=
  if c.valid = false then none
  else some (c.dz_erste_box_nr.getD 1001 + nr - 1)

/-- The `anzahl` used by direktzuender_wartung.py:
`config.get_direktzuender_config()` is `None` on an invalid config, and
`dz_config.get('anzahl', 50) if dz_config else 50`. -/
def wartungAnzahl (c : ConfigState) : Nat :=
  if c.valid = false then 50 else c.dz_anzahl.getD 50

/-! ## Authorization session (src/authorize.py) -/

/-- The exceptions `authenticate` can raise: Python's `AttributeError` for a
missing module attribute, and the module's own `AuthorizeError`. -/
inductive PyExn where
  | attributeError (msg : String)
  | authorizeError (msg : String)
  deriving Repr, DecidableEq

/-- The two transports `authenticate` can delegate to. -/
inductive Transport where
  | pigpioTransport
  | arduinoTransport
  deriving Repr, DecidableEq

/-- The module-level names defined by src/config.py (its imports, module
variables, and functions), i.e. the attributes the `config` module object has. -/
def configModuleNames : List String :=
  ["json", "logging", "os", "TRACE",
   "_config", "_startup_errors", "_config_valid", "_config_path",
   "_get_config_path", "_add_error", "_validate_required_section",
   "_validate_required_field", "_validate_rf_sender", "_validate_rf_empfaenger",
   "_validate_autorisierung", "_validate_koffer", "_validate_direktzuender",
   "_setup_logging", "_load_config",
   "get_startup_errors", "is_valid", "get_config_path", "get_rf_sender",
   "get_rf_empfaenger", "get_auth_code", "get_auth_timeout", "is_auth_required",
   "get_koffer_list", "get_channel_code", "get_direktzuender_config",
   "get_direktzuender_code", "is_direktzuender_enabled", "get_audio_config",
   "get_ui_config", "get_log_level", "get_logger"]

/-- Whether `getattr(config, n)` succeeds. -/
def configDefines (n : String) : Bool := configModuleNames.contains n

/-- The value of the attribute lookup `config.get_auth_check` performed by
authorize.py line 70: config.py defines no function of that name (its
auth-required getter is `is_auth_required`), so the lookup has no result. -/
def config_get_auth_check : Option (ConfigState → Bool) := none

/-- `authorize.authenticate(timeout)`.  The success value distinguishes an
immediate boolean result (`Sum.inl`) from delegation to a transport
(`Sum.inr`): `_authenticate_arduino` / `_authenticate_pigpio` arm hardware, so
reaching them is modelled as the selected transport.  `platform` is the result
of `detect_platform()` (a read of /proc/device-tree/model). -/
def authenticate (c : ConfigState) (platform : String) (timeout : Option Int) :
    Except PyExn (Bool ⊕ Transport) :=
  -- `if not config.get_auth_check():` — attribute lookup on the config module
  match config_get_auth_check with
  | none => .error (.attributeError "module config has no attribute get_auth_check")
  | some get_auth_check =>
    if get_auth_check c = false then .ok (.inl true)
    else if is_valid c = false then .error (.authorizeError "Config ungültig")
    else
      match get_auth_code c with
      | none => .error (.authorizeError "auth_code nicht konfiguriert")
      | some _ =>
        let _timeout := timeout.getD (get_auth_timeout c)
        if platform = "pi5" then .ok (.inr .arduinoTransport)
        else if platform = "pi4" then .ok (.inr .pigpioTransport)
        else .ok (.inr .arduinoTransport)

/-! ### Serial bridge line handling (`_authenticate_arduino`) -/

/-- Leading-whitespace removal, helper for Python's `str.strip()`. -/
def dropWhitespace : List Char → List Char
  | [] => []
  | c :: cs => if c.isWhitespace then dropWhitespace cs else c :: cs

/-- Python's `line.strip()`: remove leading and trailing whitespace.  (Python
strips a slightly larger whitespace set — form feed, vertical tab, unicode —
than `Char.isWhitespace`; no protocol line depends on those.) -/
def pyStrip (s : String) : String :=
  ⟨(dropWhitespace (dropWhitespace s.data).reverse).reverse⟩

/-- Python's `line.startswith(pre)`. -/
def pyStartsWith (s pre : String) : Bool := pre.data.isPrefixOf s.data

/-- Decimal digit run of Python's `int()`, on a list of characters: all must be
digits and there must be at least one. -/
def digitsVal (cs : List Char) : Option Nat :=
  if cs = [] then none
  else if cs.all Char.isDigit then
    some (cs.foldl (fun n c => n * 10 + (c.toNat - 48)) 0)
  else none

/-- Python's `int(line)` on an already-stripped line: optional sign followed by
decimal digits.  (Python's `int` additionally accepts underscore digit grouping
and non-ASCII digits; nothing in the protocol or the spec depends on those.) -/
def pyInt (s : String) : Option Int :=
  match s.data with
  | '-' :: rest => (digitsVal rest).map (fun n => -(n : Int))
  | '+' :: rest => (digitsVal rest).map (fun n => (n : Int))
  | cs => (digitsVal cs).map (fun n => (n : Int))

/-- The poll loop of `_authenticate_arduino` after `SCAN` is sent, over the
lines that arrive before the timeout: each raw line is decoded and `.strip()`ed;
a line starting with `#` is status text and skipped; an empty line is skipped;
any other line goes through `int(...)` — failure is logged and skipped, success
is compared with `auth_code` and a match returns `True`.  Exhausting the lines
is the timeout, returning `False`. -/
def scanLines (auth_code : Int) : List String → Bool
  | [] => false
  | raw :: rest =>
    let line := pyStrip raw
    if pyStartsWith line "#" then scanLines auth_code rest
    else if line ≠ "" then
      match pyInt line with
      | some received => if received = auth_code then true else scanLines auth_code rest
      | none => scanLines auth_code rest
    else scanLines auth_code rest

/-- The candidate codes the poll loop extracts from a line sequence: the
successfully parsed values of the lines that are neither status (`#`) nor empty
nor unparsable. -/
def scanCandidates : List String → List Int
  | [] => []
  | raw :: rest =>
    let line := pyStrip raw
    if pyStartsWith line "#" then scanCandidates rest
    else if line ≠ "" then
      match pyInt line with
      | some received => received :: scanCandidates rest
      | none => scanCandidates rest
    else scanCandidates rest

/-- `_authenticate_arduino`'s serial session over its input lines: after the 2s
settle delay, the `while ser.in_waiting > 0` loop reads and discards every line
buffered at that moment (`buffered`); only then is `SCAN` written, and the poll
loop examines the lines arriving afterwards (`polled`). -/
def arduinoAuth (buffered polled : List String) (auth_code : Int) : Bool :=
  scanLines auth_code polled

/-! ## In-memory state (src/state.py) -/

/-- Python `dict.get(k, dflt)` on an association list with unique keys. -/
def dictGet {κ : Type} [BEq κ] : List (κ × Bool) → κ → Bool → Bool
  | [], _, dflt => dflt
  | kv :: rest, k, dflt => if kv.1 == k then kv.2 else dictGet rest k dflt

/-- Python `d[k] = v` on an association list with unique keys. -/
def dictSet {κ : Type} [BEq κ] : List (κ × Bool) → κ → Bool → List (κ × Bool)
  | [], k, v => [(k, v)]
  | kv :: rest, k, v => if kv.1 == k then (k, v) :: rest else kv :: dictSet rest k v

/-- The `_state` dictionary of state.py. -/
structure PyState where
  authorized : Bool
  fire_enabled : Bool
  koffer_states : List (String × Bool)
  direktzuender_states : List (Int × Bool)
  deriving Repr, DecidableEq

/-- The dictionary key `f"{koffer_id}-{kanal_nr}"`. -/
def kofferKey (koffer_id kanal_nr : Int) : String :=
  toString koffer_id ++ "-" ++ toString kanal_nr

/-- `state.is_authorized()`. -/
def state_is_authorized (s : PyState) : Bool := s.authorized

/-- `state.is_fire_enabled()`. -/
def state_is_fire_enabled (s : PyState) : Bool := s.fire_enabled

/-- `state.get_koffer_state(koffer_id, kanal_nr)`. -/
def get_koffer_state (s : PyState) (koffer_id kanal_nr : Int) : Bool :=
  dictGet s.koffer_states (kofferKey koffer_id kanal_nr) false

/-- `state.set_koffer_fired(koffer_id, kanal_nr)`. -/
def set_koffer_fired (s : PyState) (koffer_id kanal_nr : Int) : PyState :=
  { s with koffer_states := dictSet s.koffer_states (kofferKey koffer_id kanal_nr) true }

/-- `state.get_direktzuender_state(nr)`. -/
def get_direktzuender_state (s : PyState) (nr : Int) : Bool :=
  dictGet s.direktzuender_states nr false

/-- `state.set_direktzuender_fired(nr)`. -/
def set_direktzuender_fired (s : PyState) (nr : Int) : PyState :=
  { s with direktzuender_states := dictSet s.direktzuender_states nr true }

/-- `state.reset_all()`: replaces both fired dictionaries with empty ones. -/
def reset_all (s : PyState) : PyState :=
  { s with koffer_states := [], direktzuender_states := [] }

/-! ## Persisted availability store (src/direktzuender_wartung.py) -/

/-- One entry of direktzuender_status.json: `{"nr": ..., "available": ...}`.
`available` is an `Option` because the code reads it with
`dz.get('available', True)`. -/
structure DzEntry where
  nr : Int
  available : Option Bool
  deriving Repr, DecidableEq

/-- A freshly created entry `{'nr': i, 'available': True}`. -/
def dzNew (i : Nat) : DzEntry := ⟨(i : Int), some true⟩

/-- `_load_full_status()` as a function of the stored file content and the
configured `anzahl`: extend with newly-available entries `current_count+1 ..
anzahl` when the file has fewer entries than configured, never truncate, and
initialise `1 .. anzahl` when the file was empty. -/
def load_full_status (stored : List DzEntry) (anzahl : Nat) : List DzEntry :=
  let extended :=
    if stored.length < anzahl then
      stored ++ (List.range' (stored.length + 1) (anzahl - stored.length)).map dzNew
    else stored
  if extended.isEmpty then (List.range' 1 anzahl).map dzNew
  else extended

/-- `is_direktzuender_available(nr)`: linear scan of the loaded list for the
first entry with this `nr`; `False` when none matches. -/
def is_direktzuender_available (stored : List DzEntry) (anzahl : Nat) (nr : Int) : Bool :=
  match (load_full_status stored anzahl).find? (fun dz => dz.nr == nr) with
  | some dz => dz.available.getD true
  | none => false

/-- The mutation loop of `set_direktzuender_available`: update the first entry
with matching `nr`, then stop (`break`). -/
def setFirstAvailable : List DzEntry → Int → Bool → List DzEntry
  | [], _, _ => []
  | dz :: rest, nr, v =>
    if dz.nr == nr then { dz with available := some v } :: rest
    else dz :: setFirstAvailable rest nr v

/-- `set_direktzuender_available(nr, available)`: load (extending if needed),
update the first matching entry, save the full list. -/
def set_direktzuender_available (stored : List DzEntry) (anzahl : Nat)
    (nr : Int) (v : Bool) : List DzEntry :=
  setFirstAvailable (load_full_status stored anzahl) nr v

/-! ## Fire orchestration (src/fire_control.py) -/

/-- Outcome of `sender.send(code)` (which either returns or raises
`RFSenderError`). -/
inductive SendOutcome where
  | ok
  | err (msg : String)
  deriving Repr, DecidableEq

/-- The collaborators a fire call interacts with: the loaded config, whether
`_get_rf_sender()` produced a sender, the outcome of transmitting each code,
and the persisted availability file content. -/
structure FireEnv where
  cfg : ConfigState
  sender_ok : Bool
  send : Int → SendOutcome
  store : List DzEntry

/-- `fire_control._check_authorization()`. -/
def check_authorization (s : PyState) : Bool × Option String :=
  if state_is_authorized s = false then (false, some "Nicht autorisiert")
  else if state_is_fire_enabled s = false then (false, some "Feuer nicht freigegeben")
  else (true, none)

/-- `fire_control.fire_koffer(koffer_id, kanal_nr)`: returns the
`(success, error_msg)` pair and the in-memory state after the call. -/
def fire_koffer (env : FireEnv) (s : PyState) (koffer_id kanal_nr : Int) :
    (Bool × Option String) × PyState :=
  let chk := check_authorization s
  if chk.1 = false then ((false, chk.2), s)
  else
    match get_channel_code env.cfg koffer_id kanal_nr with
    | none => ((false, some ("Ungültiger Koffer " ++ toString koffer_id)), s)
    | some code =>
      if env.sender_ok = false then ((false, some "RF-Sender nicht verfügbar"), s)
      else
        match env.send code with
        | .err e => ((false, some ("Sendefehler: " ++ e)), s)
        | .ok => ((true, none), set_koffer_fired s koffer_id kanal_nr)

/-- `fire_control.fire_direktzuender(nr)`: returns the `(success, error_msg)`
pair, the in-memory state, and the persisted store after the call (the
availability check's `_load_full_status` persists any extension it makes). -/
def fire_direktzuender (env : FireEnv) (s : PyState) (nr : Int) :
    (Bool × Option String) × PyState × List DzEntry :=
  let chk := check_authorization s
  if chk.1 = false then ((false, chk.2), s, env.store)
  else
    let anzahl := wartungAnzahl env.cfg
    let store1 := load_full_status env.store anzahl
    if is_direktzuender_available env.store anzahl nr = false then
      ((false, some ("Direktzünder " ++ toString nr ++ " nicht verfügbar")), s, store1)
    else
      match get_direktzuender_code env.cfg nr with
      | none => ((false, some ("Ungültiger Direktzünder " ++ toString nr)), s, store1)
      | some code =>
        if env.sender_ok = false then
          ((false, some "RF-Sender nicht verfügbar"), s, store1)
        else
          match env.send code with
          | .err e => ((false, some ("Sendefehler: " ++ e)), s, store1)
          | .ok => ((true, none), set_direktzuender_fired s nr, store1)

/-! ## Concrete inputs used by the theorems -/

/-- A deployment's pulse-train parameters: gap 9000µs, t0 300µs, t1 900µs,
8 bits, 2 repeats. -/
def txTestParams : TxParams := ⟨9000, 300, 900, 8, 2⟩

/-- The edge events of the encoded train for code 2 (bits `00000010`): the
transitions of the waveform (the line is high before the train, so the leader
gap's start is itself an edge), followed by a watchdog timeout after the silent
trailer gap. -/
def c1Feed : List (Nat × Nat) :=
  edgeFeed (waveEdges 100 true (txTrain txTestParams 2)) ++ [(2, 200000)]

/-- An armed decoder followed by the interval pairs (300, 900) and (900, 300):
an edge at 100 (sets `_last_edge_tick`), an edge after 9000µs (sync gap, arms),
then edges after 300, 900, 900 and 300µs. -/
def c3Feed : List (Nat × Nat) :=
  [(0, 100), (0, 9100), (0, 9400), (0, 10300), (0, 11200), (0, 11500)]

/-- The edges of two back-to-back trains for code 0.  The full wave has 33
edges; edge 18 (index 17, tick 31900) is the rising edge ending the shared
gap (last bit low 300 + trailer 9000 + next leader 9000 = 18300µs) that
terminates the first copy. -/
def c4Edges : List Nat := waveEdges 100 true (txTrain txTestParams 0)

/-- The feed up to and including the first copy's terminating long edge. -/
def c4PrefixFeed : List (Nat × Nat) := edgeFeed (c4Edges.take 18)

/-- Both copies plus a trailing watchdog timeout. -/
def c4FullFeed : List (Nat × Nat) := edgeFeed c4Edges ++ [(2, 300000)]

/-- `bits` after `_cbf` processes one more in-code edge: incremented exactly
when the edge counter was odd (a pair completed). -/
def bitsAfter (s : RxState) : Nat := if s.edge % 2 = 1 then s.bits + 1 else s.bits

/-- A config that failed validation while its file says `auth_required: false`. -/
def cfgBroken : ConfigState :=
  ⟨false, some false, some 2031, some 5, [], some 1001, some 50⟩

/-- A validated config: one koffer (id 2, koffer_nummer 200), direct igniters
starting at box 1001 with anzahl 3. -/
def cfgGood : ConfigState :=
  ⟨true, some true, some 2031, some 5, [⟨some 2, some 200, some true⟩], some 1001, some 3⟩

/-- A persisted store of three entries, entry 2 marked unavailable. -/
def storeTest : List DzEntry := [⟨1, some true⟩, ⟨2, some false⟩, ⟨3, some true⟩]

/-- Not authorized, fire enabled. -/
def stateNoAuth : PyState := ⟨false, true, [], []⟩

/-- Authorized, fire not enabled. -/
def stateNoFire : PyState := ⟨true, false, [], []⟩

/-- Authorized and fire enabled. -/
def stateArmed : PyState := ⟨true, true, [], []⟩

/-- A fire environment whose sender transmits successfully. -/
def envSendOk : FireEnv := ⟨cfgGood, true, fun _ => .ok, storeTest⟩

/-- A fire environment whose sender raises `RFSenderError` on every transmit. -/
def envSendErr : FireEnv := ⟨cfgGood, true, fun _ => .err "pigpiod down", storeTest⟩

/-- A 50-entry store with mixed availability values (entry nr is unavailable
when nr is divisible by 3). -/
def stored50 : List DzEntry :=
  (List.range' 1 50).map (fun i => ⟨(i : Int), some (decide (i % 3 ≠ 0))⟩)

/-- A decoder state mid-code: edge counter 15 (odd), 7 bits collected, first
pair (300, 300), leader gap 9000, last edge at tick 13600. -/
def rxMidCode : RxState := ⟨true, 15, 0, 9000, 300, 300, 7, 13600⟩

/-- An idle decoder state with a recorded last edge. -/
def rxIdle : RxState := ⟨false, 16, 0, 9000, 300, 300, 8, 31900⟩

/-! ## Supporting lemmas -/

theorem dictGet_dictSet_self {κ : Type} [BEq κ] [LawfulBEq κ]
    (d : List (κ × Bool)) (k : κ) (v dflt : Bool) :
    dictGet (dictSet d k v) k dflt = v := by
  induction d with
  | nil => simp [dictGet, dictSet]
  | cons kv rest ih =>
    by_cases h : kv.1 == k
    · simp [dictSet, h, dictGet]
    · simp [dictSet, h, dictGet, ih]

theorem length_setFirstAvailable (l : List DzEntry) (nr : Int) (v : Bool) :
    (setFirstAvailable l nr v).length = l.length := by
  induction l with
  | nil => rfl
  | cons dz rest ih =>
    by_cases h : dz.nr == nr <;> simp [setFirstAvailable, h, ih]

/-- `_load_full_status` in closed form: append the missing newly-available
entries when the store is shorter than configured, otherwise change nothing. -/
theorem load_full_status_eq (stored : List DzEntry) (n : Nat) :
    load_full_status stored n =
      if stored.length < n then
        stored ++ (List.range' (stored.length + 1) (n - stored.length)).map dzNew
      else stored := by
  unfold load_full_status
  cases stored with
  | nil =>
    cases n with
    | zero => simp
    | succ m => simp [List.range'_succ]
  | cons x xs =>
    dsimp only
    by_cases h : (x :: xs).length < n
    · rw [if_pos h, List.cons_append]
      rfl
    · rw [if_neg h]
      rfl

theorem length_load_full_status (stored : List DzEntry) (n : Nat) :
    (load_full_status stored n).length = max stored.length n := by
  rw [load_full_status_eq]
  by_cases h : stored.length < n
  · simp [h, List.length_range']
    omega
  · simp [h]
    omega

theorem load_full_status_idem (stored : List DzEntry) (n : Nat) :
    load_full_status (load_full_status stored n) n = load_full_status stored n := by
  have h : ¬ ((load_full_status stored n).length < n) := by
    rw [length_load_full_status]
    exact Nat.not_lt.mpr (Nat.le_max_right _ _)
  rw [load_full_status_eq (load_full_status stored n), if_neg h]

/-- Loading is idempotent, so availability read through an already-loaded store
equals availability read through the original store. -/
theorem is_direktzuender_available_load (stored : List DzEntry) (n : Nat) (nr : Int) :
    is_direktzuender_available (load_full_status stored n) n nr
      = is_direktzuender_available stored n nr := by
  unfold is_direktzuender_available
  rw [load_full_status_idem]

/-! ## Claims -/

/-- C1: the round-trip fails on the code.  Encoding code 2 at 8 bits with valid
parameters and feeding the train's edges one by one into the decoder emits
`(code 0, bits 8)` — not code 2: because `_t0`/`_t1` are written only at edges
0 and 1, every bit of a code repeats the first pair's comparison, so no code
with unequal bits can round-trip. -/
theorem roundtrip_fails_for_code_two :
    (rxRun ⟨8, 32⟩ rxInit c1Feed).2.map Emit.code = [0]
  ∧ (rxRun ⟨8, 32⟩ rxInit c1Feed).2.map Emit.bits = [8]
  ∧ (rxRun ⟨8, 32⟩ rxInit c1Feed).2.map Emit.code ≠ [2] := by decide

/-- C3: the second interval pair is not recorded.  After the pairs (300, 900)
and (900, 300) the decoder holds code 3 and still `t1 = 900`: the second pair's
bit was decided by the stored first pair (300 < 900, bit 1), not by its own
intervals (900 < 300 would give bit 0 and code 2 as the claim states). -/
theorem second_pair_not_recorded :
    (rxRun ⟨8, 32⟩ rxInit c3Feed).1.bits = 2
  ∧ (rxRun ⟨8, 32⟩ rxInit c3Feed).1.code = 3
  ∧ (rxRun ⟨8, 32⟩ rxInit c3Feed).1.t0 = 300
  ∧ (rxRun ⟨8, 32⟩ rxInit c3Feed).1.t1 = 900
  ∧ (rxRun ⟨8, 32⟩ rxInit c3Feed).1.code ≠ 2 := by decide

/-- C4 counterexample: the long interval that terminates a code does not re-arm
the decoder.  After the shared 18300µs gap between two back-to-back trains the
decoder is idle (`in_code = false`) and its `gap` field still holds the first
leader gap, not the shared gap the claim says re-arms it; the second copy is
never decoded, so the 2-repeat train yields one emission, not two. -/
theorem long_gap_rearm_cex :
    (rxRun ⟨8, 32⟩ rxInit c4PrefixFeed).1.in_code = false
  ∧ (rxRun ⟨8, 32⟩ rxInit c4PrefixFeed).1.gap = 9000
  ∧ (rxRun ⟨8, 32⟩ rxInit c4PrefixFeed).1.gap ≠ 18300
  ∧ (rxRun ⟨8, 32⟩ rxInit c4PrefixFeed).2.length = 1
  ∧ (rxRun ⟨8, 32⟩ rxInit c4FullFeed).2.length = 1 := by decide

/-- C2: `authenticate` never reaches the auth-required check, let alone returns
true.  Its first statement calls `config.get_auth_check()`, an attribute the
config module does not define (its getter is named `is_auth_required`), so the
call raises `AttributeError` for every configuration, timeout and platform. -/
theorem authenticate_raises_attribute_error :
    configDefines "get_auth_check" = false
  ∧ configDefines "is_auth_required" = true
  ∧ ∀ (c : ConfigState) (platform : String) (timeout : Option Int),
      authenticate c platform timeout =
        .error (.attributeError "module config has no attribute get_auth_check") :=
  ⟨by decide, by decide, fun _ _ _ => rfl⟩

/-- C7: serial bridge line handling.  Buffered lines are drained and never
reach the candidate parser; a `#` line is skipped by both the wait loop and the
candidate extraction; the line "2031" yields exactly candidate 2031 (which the
wait loop compares against the expected code); the unparsable line "abc" is
skipped without aborting the loop. -/
theorem arduino_line_handling (buffered ls : List String) (auth : Int) :
    arduinoAuth buffered ls auth = scanLines auth ls
  ∧ scanLines auth ("#booting" :: ls) = scanLines auth ls
  ∧ scanCandidates ("#booting" :: ls) = scanCandidates ls
  ∧ scanCandidates ("2031" :: ls) = 2031 :: scanCandidates ls
  ∧ scanLines auth ("2031" :: ls) =
      (if (2031 : Int) = auth then true else scanLines auth ls)
  ∧ scanCandidates ("abc" :: ls) = scanCandidates ls
  ∧ scanLines auth ("abc" :: ls) = scanLines auth ls :=
  ⟨rfl, rfl, rfl, rfl, rfl, rfl, rfl⟩

/-- C9: `reset_all` empties both fired dictionaries, so every fired-state query
afterwards returns false, while the `authorized` and `fire_enabled` flags are
untouched. -/
theorem reset_all_clears_only_fired (s : PyState) (kid kanal nr : Int) :
    get_koffer_state (reset_all s) kid kanal = false
  ∧ get_direktzuender_state (reset_all s) nr = false
  ∧ (reset_all s).authorized = s.authorized
  ∧ (reset_all s).fire_enabled = s.fire_enabled :=
  ⟨rfl, rfl, rfl, rfl⟩

/-- C10: on a configuration that failed validation, `is_auth_required` returns
true regardless of what the config file says, so a broken config cannot disable
the authorization requirement. -/
theorem invalid_config_requires_auth (c : ConfigState) (h : c.valid = false) :
    is_auth_required c = true := by
  simp [is_auth_required, h]

theorem invalid_config_requires_auth_witness :
    cfgBroken.valid = false ∧ is_auth_required cfgBroken = true :=
  ⟨rfl, invalid_config_requires_auth cfgBroken rfl⟩

/-- C4 (amended): an interval exceeding the long-gap threshold while `in_code`
completes a pending bit (edge counter odd), emits the code iff the resulting
bit count is within `[min_bits, max_bits]`, and returns the decoder to idle
WITHOUT re-arming — the recorded leader gap is untouched, and while idle a
short interval neither arms the decoder nor emits, so a back-to-back code is
lost until a further long interval arrives while idle. -/
theorem long_gap_terminates_to_idle :
    (∀ (p : RxParams) (s : RxState) (t : Nat),
       s.in_code = true → s.last_edge_tick ≠ 0 →
       4000 < tickDiff s.last_edge_tick t →
         (cbf p s 0 t).1.in_code = false
       ∧ (cbf p s 0 t).1.gap = s.gap
       ∧ ((cbf p s 0 t).2.isSome = true ↔
            p.min_bits ≤ bitsAfter s ∧ bitsAfter s ≤ p.max_bits))
  ∧ (∀ (p : RxParams) (s : RxState) (t : Nat),
       s.in_code = false → tickDiff s.last_edge_tick t ≤ 4000 →
         (cbf p s 0 t).1.in_code = false ∧ (cbf p s 0 t).2 = none) := by
  constructor
  · intro p s t h1 h2 h3
    by_cases he0 : s.edge = 0 <;> by_cases he1 : s.edge = 1 <;>
      by_cases hod : s.edge % 2 = 1 <;>
        by_cases hP : p.min_bits ≤ bitsAfter s ∧ bitsAfter s ≤ p.max_bits <;>
          simp_all [cbf, bitsAfter]
  · intro p s t h1 h2
    by_cases h0 : s.last_edge_tick = 0 <;>
      simp_all [cbf, Nat.not_lt.mpr h2]

theorem long_gap_terminates_to_idle_witness :
    ((cbf ⟨8, 32⟩ rxMidCode 0 31900).1.in_code = false
   ∧ (cbf ⟨8, 32⟩ rxMidCode 0 31900).1.gap = rxMidCode.gap
   ∧ ((cbf ⟨8, 32⟩ rxMidCode 0 31900).2.isSome = true ↔
        8 ≤ bitsAfter rxMidCode ∧ bitsAfter rxMidCode ≤ 32))
  ∧ ((cbf ⟨8, 32⟩ rxIdle 0 32200).1.in_code = false
   ∧ (cbf ⟨8, 32⟩ rxIdle 0 32200).2 = none) :=
  ⟨long_gap_terminates_to_idle.1 ⟨8, 32⟩ rxMidCode 31900 rfl (by decide) (by decide),
   long_gap_terminates_to_idle.2 ⟨8, 32⟩ rxIdle 32200 rfl (by decide)⟩

/-- C5: a fire request is rejected non-exceptionally with a reason string
whenever the authorization flag or the global armed flag is false, in any
combination, leaving the state untouched; a standalone igniter marked
unavailable in the persisted store is rejected even when armed and authorized;
and a fire call never changes any igniter's availability. -/
theorem fire_rejection (env : FireEnv) (s : PyState) (kid kanal nr : Int) :
    (s.authorized = false ∨ s.fire_enabled = false →
       ((fire_koffer env s kid kanal).1.1 = false
      ∧ (fire_koffer env s kid kanal).1.2.isSome = true
      ∧ (fire_koffer env s kid kanal).2 = s)
     ∧ ((fire_direktzuender env s nr).1.1 = false
      ∧ (fire_direktzuender env s nr).1.2.isSome = true
      ∧ (fire_direktzuender env s nr).2.1 = s))
  ∧ (s.authorized = true → s.fire_enabled = true →
     is_direktzuender_available env.store (wartungAnzahl env.cfg) nr = false →
       (fire_direktzuender env s nr).1 =
         (false, some ("Direktzünder " ++ toString nr ++ " nicht verfügbar")))
  ∧ (∀ m, is_direktzuender_available (fire_direktzuender env s nr).2.2
            (wartungAnzahl env.cfg) m
        = is_direktzuender_available env.store (wartungAnzahl env.cfg) m) := by
  refine ⟨?_, ?_, ?_⟩
  · intro h
    have h1 : (check_authorization s).1 = false
        ∧ (check_authorization s).2.isSome = true := by
      cases hb : s.authorized with
      | false => simp [check_authorization, state_is_authorized, hb]
      | true =>
        cases hf : s.fire_enabled with
        | false =>
          simp [check_authorization, state_is_authorized, state_is_fire_enabled, hb, hf]
        | true =>
          rcases h with h | h
          · rw [hb] at h; exact absurd h (by decide)
          · rw [hf] at h; exact absurd h (by decide)
    constructor
    · simp only [fire_koffer]
      rw [if_pos h1.1]
      exact ⟨rfl, h1.2, rfl⟩
    · simp only [fire_direktzuender]
      rw [if_pos h1.1]
      exact ⟨rfl, h1.2, rfl⟩
  · intro ha hf hv
    have hchk : (check_authorization s).1 = true := by
      simp [check_authorization, state_is_authorized, state_is_fire_enabled, ha, hf]
    simp only [fire_direktzuender]
    rw [if_neg (by simp [hchk]), if_pos hv]
  · intro m
    by_cases hc : (check_authorization s).1 = false
    · simp only [fire_direktzuender]
      rw [if_pos hc]
    · simp only [fire_direktzuender]
      rw [if_neg hc]
      have hL := is_direktzuender_available_load env.store (wartungAnzahl env.cfg) m
      split
      · exact hL
      · split
        · exact hL
        · split
          · exact hL
          · split
            · exact hL
            · exact hL

theorem fire_rejection_witness :
    ((fire_koffer envSendOk stateNoAuth 2 3).1.1 = false
   ∧ (fire_koffer envSendOk stateNoAuth 2 3).1.2.isSome = true
   ∧ (fire_koffer envSendOk stateNoAuth 2 3).2 = stateNoAuth)
  ∧ ((fire_direktzuender envSendOk stateNoFire 1).1.1 = false
   ∧ (fire_direktzuender envSendOk stateNoFire 1).1.2.isSome = true
   ∧ (fire_direktzuender envSendOk stateNoFire 1).2.1 = stateNoFire)
  ∧ (fire_direktzuender envSendOk stateArmed 2).1 =
      (false, some ("Direktzünder " ++ toString (2 : Int) ++ " nicht verfügbar"))
  ∧ is_direktzuender_available (fire_direktzuender envSendOk stateArmed 1).2.2
      (wartungAnzahl envSendOk.cfg) 2
    = is_direktzuender_available envSendOk.store (wartungAnzahl envSendOk.cfg) 2 :=
  ⟨((fire_rejection envSendOk stateNoAuth 2 3 1).1 (Or.inl rfl)).1,
   ((fire_rejection envSendOk stateNoFire 2 3 1).1 (Or.inr rfl)).2,
   (fire_rejection envSendOk stateArmed 2 3 2).2.1 rfl rfl (by decide),
   (fire_rejection envSendOk stateArmed 2 3 1).2.2 2⟩

/-- C6: when the transmit step raises `RFSenderError`, the fire call returns a
failed result with a transmit-failure reason and the in-memory state (hence the
channel's fired flag) is unchanged; the fired flag is set exactly on the
successful-transmit path. -/
theorem transmit_failure_leaves_unfired (env : FireEnv) (s : PyState)
    (kid kanal nr codeK codeD : Int) (e : String)
    (ha : s.authorized = true) (hf : s.fire_enabled = true)
    (hs : env.sender_ok = true) :
    (get_channel_code env.cfg kid kanal = some codeK →
       (env.send codeK = .err e →
          fire_koffer env s kid kanal = ((false, some ("Sendefehler: " ++ e)), s))
     ∧ (env.send codeK = .ok →
          fire_koffer env s kid kanal = ((true, none), set_koffer_fired s kid kanal)
        ∧ get_koffer_state (set_koffer_fired s kid kanal) kid kanal = true))
  ∧ (is_direktzuender_available env.store (wartungAnzahl env.cfg) nr = true →
     get_direktzuender_code env.cfg nr = some codeD →
       (env.send codeD = .err e →
          fire_direktzuender env s nr =
            ((false, some ("Sendefehler: " ++ e)), s,
             load_full_status env.store (wartungAnzahl env.cfg)))
     ∧ (env.send codeD = .ok →
          fire_direktzuender env s nr =
            ((true, none), set_direktzuender_fired s nr,
             load_full_status env.store (wartungAnzahl env.cfg))
        ∧ get_direktzuender_state (set_direktzuender_fired s nr) nr = true)) := by
  constructor
  · intro hcode
    constructor
    · intro hsend
      simp [fire_koffer, check_authorization, state_is_authorized,
            state_is_fire_enabled, ha, hf, hs, hcode, hsend]
    · intro hsend
      refine ⟨?_, ?_⟩
      · simp [fire_koffer, check_authorization, state_is_authorized,
              state_is_fire_enabled, ha, hf, hs, hcode, hsend]
      · exact dictGet_dictSet_self s.koffer_states (kofferKey kid kanal) true false
  · intro hv hcode
    constructor
    · intro hsend
      simp [fire_direktzuender, check_authorization, state_is_authorized,
            state_is_fire_enabled, ha, hf, hs, hv, hcode, hsend]
    · intro hsend
      refine ⟨?_, ?_⟩
      · simp [fire_direktzuender, check_authorization, state_is_authorized,
              state_is_fire_enabled, ha, hf, hs, hv, hcode, hsend]
      · exact dictGet_dictSet_self s.direktzuender_states nr true false

theorem transmit_failure_leaves_unfired_witness :
    fire_koffer envSendErr stateArmed 2 3 =
      ((false, some ("Sendefehler: " ++ "pigpiod down")), stateArmed)
  ∧ fire_koffer envSendOk stateArmed 2 3 =
      ((true, none), set_koffer_fired stateArmed 2 3)
  ∧ get_koffer_state (set_koffer_fired stateArmed 2 3) 2 3 = true
  ∧ fire_direktzuender envSendErr stateArmed 1 =
      ((false, some ("Sendefehler: " ++ "pigpiod down")), stateArmed,
       load_full_status envSendErr.store (wartungAnzahl envSendErr.cfg))
  ∧ get_direktzuender_state (set_direktzuender_fired stateArmed 1) 1 = true :=
  ⟨((transmit_failure_leaves_unfired envSendErr stateArmed 2 3 1 203 1001
       "pigpiod down" rfl rfl rfl).1 (by decide)).1 rfl,
   (((transmit_failure_leaves_unfired envSendOk stateArmed 2 3 1 203 1001
       "x" rfl rfl rfl).1 (by decide)).2 rfl).1,
   (((transmit_failure_leaves_unfired envSendOk stateArmed 2 3 1 203 1001
       "x" rfl rfl rfl).1 (by decide)).2 rfl).2,
   (((transmit_failure_leaves_unfired envSendErr stateArmed 2 3 1 203 1001
       "pigpiod down" rfl rfl rfl).2 (by decide) (by decide)).1 rfl),
   (((transmit_failure_leaves_unfired envSendOk stateArmed 2 3 1 203 1001
       "x" rfl rfl rfl).2 (by decide) (by decide)).2 rfl).2⟩

/-- C8: loading the availability store is growth-only.  The loaded list has
`max stored-count configured-count` entries — never fewer than stored; the
stored entries are an unchanged prefix; every newly created entry `i+1` (for
stored-count ≤ i < configured-count) is a fresh available entry; and an
availability update also preserves the loaded length (no update truncates). -/
theorem availability_store_growth (stored : List DzEntry) (n : Nat) :
    (load_full_status stored n).length = max stored.length n
  ∧ (load_full_status stored n).take stored.length = stored
  ∧ (∀ i, stored.length ≤ i → i < n →
        (load_full_status stored n).getD i ⟨0, none⟩ = dzNew (i + 1))
  ∧ (∀ nr v, (set_direktzuender_available stored n nr v).length
               = (load_full_status stored n).length) := by
  refine ⟨length_load_full_status stored n, ?_, ?_, ?_⟩
  · rw [load_full_status_eq]
    by_cases h : stored.length < n
    · rw [if_pos h, List.take_left]
    · rw [if_neg h, List.take_length]
  · intro i h1 h2
    have h : stored.length < n := Nat.lt_of_le_of_lt h1 h2
    rw [load_full_status_eq, if_pos h]
    rw [List.getD_eq_getElem?_getD, List.getElem?_append_right h1, List.getElem?_map,
        List.getElem?_range' _ _ (show i - stored.length < n - stored.length by omega)]
    show dzNew (stored.length + 1 + 1 * (i - stored.length)) = dzNew (i + 1)
    congr 1
    omega
  · intro nr v
    unfold set_direktzuender_available
    rw [length_setFirstAvailable]

theorem availability_store_growth_witness :
    (load_full_status stored50 60).length = 60
  ∧ (load_full_status stored50 60).take 50 = stored50
  ∧ (load_full_status stored50 60).getD 54 ⟨0, none⟩ = dzNew 55
  ∧ (set_direktzuender_available stored50 60 7 false).length
      = (load_full_status stored50 60).length := by
  have hlen : stored50.length = 50 := by decide
  have h := availability_store_growth stored50 60
  refine ⟨?_, ?_, ?_, h.2.2.2 7 false⟩
  · rw [h.1, hlen]
    decide
  · have h2 := h.2.1
    rwa [hlen] at h2
  · exact h.2.2.1 54 (by rw [hlen]; omega) (by omega)

end Pyroman
